import Mathlib

/-!
Shallow embedding of the `oai-batch-rate` batch processor core
(`rate_limiters.py` and `batch_processor.py`).

Modelling conventions:
* Wall-clock and monotonic clock readings (`time.time()` / `time.monotonic()`)
  are rationals (`ℚ`); every function that reads the clock in Python takes the
  reading as an explicit parameter.  Where one Python function reads the clock
  several times, each read gets its own parameter.
* Python ints that are always non-negative in this program (token counts,
  counters) are `ℕ`; Python's `None`-able parameters are `Option`s.
* Python truthiness of an optional int (`if tokens:`) is `tokensTruthy`:
  `None` and `0` are falsy.
* `collections.deque` is a `List` with appends at the tail and `popleft`
  modelled by `List.dropWhile` for the pruning loops.
* Fallible code (Python exceptions) returns `Option`: `none` models a raised
  exception (`ZeroDivisionError` in `_calculate_tpm`).
* `float('inf')` (the initial `min_tokens` tracker) is modelled by
  `Option ℕ` with `none` standing for infinity.
-/

/-- Python `int()` applied to a rational: truncation toward zero. -/
def pyInt (q : ℚ) : ℤ := Int.tdiv q.num (q.den : ℤ)

/-- Python `round()` to an integer: round half to even (banker's rounding). -/
def roundHalfEven (q : ℚ) : ℤ :=
  let f : ℤ := Rat.floor q
  let r : ℚ := q - (f : ℚ)
  if r < 1/2 then f
  else if 1/2 < r then f + 1
  else if f % 2 = 0 then f else f + 1

/-- Python `round(x, 2)`: round to two decimal places, half to even. -/
def pyRound2 (q : ℚ) : ℚ := (roundHalfEven (q * 100) : ℚ) / 100

/-- Boolean list-prefix test used by the substring check. -/
def listPrefixOf : List Char → List Char → Bool
  | [], _ => true
  | _ :: _, [] => false
  | a :: pa, b :: pb => a == b && listPrefixOf pa pb

/-- Boolean substring containment on char lists (`pat` occurs in the list). -/
def listContainsSub (pat : List Char) : List Char → Bool
  | [] => listPrefixOf pat []
  | c :: rest => listPrefixOf pat (c :: rest) || listContainsSub pat rest

/-- Python `pat in s` substring containment on strings. -/
def strContainsSub (s pat : String) : Bool := listContainsSub pat.data s.data

/-- The literal marker `"429"` from `batch_processor.py` line 73. -/
def str429 : String := "429"

/-- The literal marker `"rate limit"` from `batch_processor.py` line 73. -/
def strRateLimit : String := "rate limit"

/-- Python truthiness of the optional `tokens` argument: `None` and `0` are
falsy, every other int is truthy. -/
def tokensTruthy : Option ℕ → Bool
  | none => false
  | some n => n != 0

/-- Rate-limit error detection (`batch_processor.py` line 73):
`"429" in error and "rate limit" in error.lower()`. -/
def isRateLimitError (msg : String) : Bool :=
  strContainsSub msg str429 && strContainsSub msg.toLower strRateLimit

/-- State of `FixedWindowRateLimiter` (`rate_limiters.py`). -/
structure FixedWindowRateLimiter where
  max_rpm : ℕ
  max_tpm : ℕ
  rpm_window_size : ℚ
  tpm_window_size : ℚ
  request_timestamps : List ℚ
  token_usage : List (ℚ × ℕ)
  rpm_window_start_time : ℚ
  rpm_window_requests : ℕ
  tpm_window_start_time : ℚ
  tpm_window_tokens : ℕ
  current_rpm : ℕ
  current_tpm : ℕ
  deriving DecidableEq

namespace FixedWindowRateLimiter

/-- Python `FixedWindowRateLimiter.__init__` at wall-clock time `now`. -/
def make (mr mt : ℕ) (rws tws : ℚ) (now : ℚ) : FixedWindowRateLimiter :=
  { max_rpm := mr, max_tpm := mt, rpm_window_size := rws, tpm_window_size := tws,
    request_timestamps := [], token_usage := [],
    rpm_window_start_time := now, rpm_window_requests := 0,
    tpm_window_start_time := now, tpm_window_tokens := 0,
    current_rpm := 0, current_tpm := 0 }

/-- Python `_refresh_windows` (lines 78-98): roll over each elapsed fixed window and
prune sliding-history entries older than one minute from the head. -/
def refreshWindows (now : ℚ) (rl : FixedWindowRateLimiter) : FixedWindowRateLimiter :=
  let rl1 := if now - rl.rpm_window_start_time ≥ rl.rpm_window_size then
      { rl with rpm_window_start_time := now, rpm_window_requests := 0 }
    else rl
  let rl2 := if now - rl1.tpm_window_start_time ≥ rl1.tpm_window_size then
      { rl1 with tpm_window_start_time := now, tpm_window_tokens := 0 }
    else rl1
  { rl2 with
    request_timestamps := rl2.request_timestamps.dropWhile (fun ts => decide (ts < now - 60)),
    token_usage := rl2.token_usage.dropWhile (fun p => decide (p.1 < now - 60)) }

/-- Python `_calculate_rates` (lines 100-111): recompute `current_rpm`/`current_tpm`
from the entries of the trailing minute. -/
def calculateRates (now : ℚ) (rl : FixedWindowRateLimiter) : FixedWindowRateLimiter :=
  { rl with
    current_rpm := (rl.request_timestamps.filter (fun ts => decide (ts ≥ now - 60))).length,
    current_tpm := ((rl.token_usage.filter (fun p => decide (p.1 ≥ now - 60))).map Prod.snd).sum }

/-- Python `_calculate_window_limits` (lines 113-123): per-window quotas,
`cap * window_size / 60`, or `0` when the cap is `0`. -/
def calculateWindowLimits (rl : FixedWindowRateLimiter) : ℚ × ℚ :=
  ((if 0 < rl.max_rpm then (rl.max_rpm : ℚ) * rl.rpm_window_size / 60 else 0),
   (if 0 < rl.max_tpm then (rl.max_tpm : ℚ) * rl.tpm_window_size / 60 else 0))

/-- Python `_calculate_window_rates` (lines 125-139): entries inside each window
scaled to a per-minute figure. -/
def calculateWindowRates (now : ℚ) (rl : FixedWindowRateLimiter) : ℚ × ℚ :=
  (((rl.request_timestamps.filter (fun ts => decide (ts ≥ now - rl.rpm_window_size))).length : ℚ)
     * (60 / rl.rpm_window_size),
   (((rl.token_usage.filter (fun p => decide (p.1 ≥ now - rl.tpm_window_size))).map Prod.snd).sum : ℚ)
     * (60 / rl.tpm_window_size))

/-- Python `should_limit` (lines 141-162).  Returns the boolean decision together
with the post-call limiter state (the `_refresh_windows` side effect). -/
def should_limit (now : ℚ) (tokens : Option ℕ) (rl : FixedWindowRateLimiter) :
    Bool × FixedWindowRateLimiter :=
  let rl' := refreshWindows now rl
  let limits := calculateWindowLimits rl'
  let b : Bool :=
    if 0 < limits.1 ∧ (rl'.rpm_window_requests : ℚ) ≥ limits.1 then true
    else if 0 < limits.2 ∧ tokensTruthy tokens = true ∧
        (rl'.tpm_window_tokens : ℚ) + (tokens.getD 0 : ℚ) > limits.2 then true
    else false
  (b, rl')

/-- Python `record_request` (lines 164-185). -/
def record_request (now : ℚ) (tokens : Option ℕ) (rl : FixedWindowRateLimiter) :
    FixedWindowRateLimiter :=
  let rl1 := { rl with request_timestamps := rl.request_timestamps ++ [now] }
  let rl2 := if tokensTruthy tokens then
      { rl1 with token_usage := rl1.token_usage ++ [(now, tokens.getD 0)],
                 tpm_window_tokens := rl1.tpm_window_tokens + tokens.getD 0 }
    else rl1
  let rl3 := { rl2 with rpm_window_requests := rl2.rpm_window_requests + 1 }
  calculateRates now rl3

/-- The dictionary returned by `get_current_rates` (lines 187-217). -/
structure RatesInfo where
  rpm : ℤ
  tpm : ℤ
  max_rpm : ℕ
  max_tpm : ℕ
  rpm_window_size : ℚ
  tpm_window_size : ℚ
  rpm_window_requests : ℕ
  tpm_window_tokens : ℕ
  rpm_window_max_requests : ℚ
  tpm_window_max_tokens : ℚ
  rpm_window_start_time : ℚ
  tpm_window_start_time : ℚ
  window_rpm : ℤ
  window_tpm : ℤ
  deriving DecidableEq

/-- Python `get_current_rates` (lines 187-217): refresh, recompute rates, and return
the monitoring dictionary together with the post-call state. -/
def get_current_rates (now : ℚ) (rl : FixedWindowRateLimiter) :
    RatesInfo × FixedWindowRateLimiter :=
  let rl' := calculateRates now (refreshWindows now rl)
  let wr := calculateWindowRates now rl'
  let lims := calculateWindowLimits rl'
  ({ rpm := (rl'.current_rpm : ℤ), tpm := (rl'.current_tpm : ℤ),
     max_rpm := rl'.max_rpm, max_tpm := rl'.max_tpm,
     rpm_window_size := rl'.rpm_window_size, tpm_window_size := rl'.tpm_window_size,
     rpm_window_requests := rl'.rpm_window_requests,
     tpm_window_tokens := rl'.tpm_window_tokens,
     rpm_window_max_requests := lims.1, tpm_window_max_tokens := lims.2,
     rpm_window_start_time := rl'.rpm_window_start_time,
     tpm_window_start_time := rl'.tpm_window_start_time,
     window_rpm := pyInt wr.1, window_tpm := pyInt wr.2 }, rl')

/-- Python `reset` (lines 219-228). -/
def reset (now : ℚ) (rl : FixedWindowRateLimiter) : FixedWindowRateLimiter :=
  { rl with request_timestamps := [], token_usage := [],
            rpm_window_start_time := now, tpm_window_start_time := now,
            rpm_window_requests := 0, tpm_window_tokens := 0,
            current_rpm := 0, current_tpm := 0 }

end FixedWindowRateLimiter

/-- Outcome status of a recorded task (`'success'`/`'error'`). -/
inductive Status where
  | success
  | error
  deriving DecidableEq

/-- Rate-limit mode (`"unlimited"` / `"limited"`).  The code only ever
compares the mode string against `"limited"`; every other string behaves as
`unlimited`, so two constructors suffice. -/
inductive Mode where
  | unlimited
  | limited
  deriving DecidableEq

/-- A recorded task outcome (`batch_processor.py` lines 85-91).  `task_result`
is `none` when the task function raised; when it returned, the inner
`Option ℕ` is the optional `'tokens'` field of the result dict (a returned
`None` or empty dict is modelled as `none`, which is observationally
equivalent in this code). -/
structure TaskOutcome where
  executor_id : ℕ
  task_result : Option (Option ℕ)
  execution_time : ℚ
  error : Option String
  status : Status
  deriving DecidableEq

/-- Result of invoking the collaborator-supplied task function: either a
returned record (see `TaskOutcome.task_result`) or a raised exception whose
`str()` is the given message. -/
inductive ExecOutcome where
  | ok (res : Option (Option ℕ))
  | err (msg : String)
  deriving DecidableEq

/-- Wall-clock (`time.time()`) and monotonic (`time.monotonic()`) readings
taken during one `_executor_worker` loop iteration, one per clock read. -/
structure StepTimes where
  tLimit : ℚ
  tQuery : ℚ
  tRecord : ℚ
  tReq : ℚ
  tTok : ℚ
  mStart : ℚ
  mEnd : ℚ
  deriving DecidableEq

/-- State of `BatchProcessor` (`batch_processor.py`).  Tasks are opaque
`(task_func, args, kwargs)` tuples identified here by a `ℕ` id; the queue is
a FIFO list with the head at the front.  `min_tokens = none` models the
`float('inf')` initialization. -/
structure BatchProcessor where
  task_queue : List ℕ
  rate_limit_mode : Mode
  rate_limiter : Option FixedWindowRateLimiter
  num_executors : ℕ
  results : List TaskOutcome
  completed_tasks : ℕ
  total_tasks : ℕ
  error_count : ℕ
  requeued_tasks : ℕ
  total_tokens : ℕ
  min_tokens : Option ℕ
  max_tokens : ℕ
  token_count : ℕ
  token_history : List (ℚ × ℕ)
  request_history : List ℚ
  query_history : List ℚ
  tpm_window_seconds : ℚ
  rpm_window_seconds : ℚ
  last_qps_calculation_time : ℚ
  queries_since_last_calculation : ℕ
  instantaneous_qps : ℚ
  running : Bool
  deriving DecidableEq

namespace BatchProcessor

/-- Python `BatchProcessor.__init__` at wall-clock time `now` (construction then
`reset`, which this record spells out directly). -/
def make (n : ℕ) (mode : Mode) (mr mt : ℕ) (now : ℚ) : BatchProcessor :=
  { task_queue := [], rate_limit_mode := mode,
    rate_limiter :=
      (if mode = Mode.limited then some (FixedWindowRateLimiter.make mr mt 10 60 now) else none),
    num_executors := n, results := [], completed_tasks := 0, total_tasks := 0,
    error_count := 0, requeued_tasks := 0, total_tokens := 0, min_tokens := none,
    max_tokens := 0, token_count := 0, token_history := [], request_history := [],
    query_history := [], tpm_window_seconds := 60, rpm_window_seconds := 10,
    last_qps_calculation_time := now, queries_since_last_calculation := 0,
    instantaneous_qps := 0, running := false }

/-- Python `add_task` (lines 20-24): enqueue at the tail and bump `total_tasks`. -/
def add_task (task : ℕ) (s : BatchProcessor) : BatchProcessor :=
  { s with task_queue := s.task_queue ++ [task], total_tasks := s.total_tasks + 1 }

/-- Python `min(float('inf'), t)` for the `min_tokens` tracker. -/
def minUpdate (m : Option ℕ) (t : ℕ) : ℕ :=
  match m with
  | none => t
  | some v => min v t

/-- Python `tokens = task_result.get('tokens', 0) if task_result else 0`
(line 65). -/
def resTokens : Option (Option ℕ) → ℕ
  | none => 0
  | some o => o.getD 0

/-- The execute-and-record part of `_executor_worker` (lines 48-110), entered
with the dequeued `task` after any admission check has passed.  `exec` is the
task function's behaviour on this invocation. -/
def executePath (eid task : ℕ) (exec : ExecOutcome) (tm : StepTimes)
    (s : BatchProcessor) : BatchProcessor :=
  let s1 := { s with query_history := s.query_history ++ [tm.tQuery],
                     queries_since_last_calculation := s.queries_since_last_calculation + 1 }
  match exec with
  | ExecOutcome.ok res =>
    let s2 :=
      match s1.rate_limit_mode, s1.rate_limiter with
      | Mode.limited, some rl =>
        let rl' := FixedWindowRateLimiter.record_request tm.tRecord (some (resTokens res)) rl
        { s1 with rate_limiter := some rl' }
      | _, _ => s1
    let outcome : TaskOutcome :=
      { executor_id := eid, task_result := res, execution_time := tm.mEnd - tm.mStart,
        error := none, status := Status.success }
    let s3 := { s2 with results := s2.results ++ [outcome],
                        completed_tasks := s2.completed_tasks + 1,
                        request_history := s2.request_history ++ [tm.tReq] }
    match res with
    | some (some t) =>
      { s3 with total_tokens := s3.total_tokens + t,
                min_tokens := some (minUpdate s3.min_tokens t),
                max_tokens := max s3.max_tokens t,
                token_count := s3.token_count + 1,
                token_history := s3.token_history ++ [(tm.tTok, t)] }
    | _ => s3
  | ExecOutcome.err msg =>
    if isRateLimitError msg then
      { s1 with task_queue := s1.task_queue ++ [task],
                requeued_tasks := s1.requeued_tasks + 1 }
    else
      let outcome : TaskOutcome :=
        { executor_id := eid, task_result := none, execution_time := tm.mEnd - tm.mStart,
          error := some msg, status := Status.error }
      { s1 with results := s1.results ++ [outcome],
                completed_tasks := s1.completed_tasks + 1,
                error_count := s1.error_count + 1 }

/-- One full `_executor_worker` loop iteration (lines 28-113): bounded-wait
dequeue (`queue.Empty` leaves the state unchanged), the admission gate in
limited mode, then execute-and-record. -/
def executorStep (eid : ℕ) (exec : ExecOutcome) (tm : StepTimes)
    (s : BatchProcessor) : BatchProcessor :=
  match s.task_queue with
  | [] => s
  | task :: rest =>
    match s.rate_limit_mode, s.rate_limiter with
    | Mode.limited, some rl =>
      let res := FixedWindowRateLimiter.should_limit tm.tLimit none rl
      if res.1 then
        { s with task_queue := rest ++ [task],
                 rate_limiter := some res.2,
                 requeued_tasks := s.requeued_tasks + 1 }
      else
        executePath eid task exec tm { s with task_queue := rest, rate_limiter := some res.2 }
    | _, _ => executePath eid task exec tm { s with task_queue := rest }

/-- Python `start` (lines 115-136): reset per-run counters and the limiter state;
worker threads themselves are outside the state model. -/
def start (now : ℚ) (s : BatchProcessor) : BatchProcessor :=
  { s with running := true, results := [], completed_tasks := 0, error_count := 0,
           requeued_tasks := 0,
           rate_limiter := s.rate_limiter.map (fun rl => FixedWindowRateLimiter.reset now rl) }

/-- Python `stop` (lines 138-143): flip the running flag (thread joins are outside
the state model). -/
def stop (s : BatchProcessor) : BatchProcessor := { s with running := false }

/-- Python `reset` (lines 145-173). -/
def reset (now : ℚ) (n : ℕ) (s : BatchProcessor) : BatchProcessor :=
  { task_queue := [], rate_limit_mode := s.rate_limit_mode,
    rate_limiter := s.rate_limiter.map (fun rl => FixedWindowRateLimiter.reset now rl),
    num_executors := n, results := [], completed_tasks := 0, total_tasks := 0,
    error_count := 0, requeued_tasks := 0, total_tokens := 0, min_tokens := none,
    max_tokens := 0, token_count := 0, token_history := [], request_history := [],
    query_history := [], tpm_window_seconds := 60, rpm_window_seconds := 10,
    last_qps_calculation_time := now, queries_since_last_calculation := 0,
    instantaneous_qps := 0, running := false }

/-- Python `set_rate_limits` (lines 175-188). -/
def set_rate_limits (mode : Mode) (mr mt : ℕ) (now : ℚ) (s : BatchProcessor) :
    BatchProcessor :=
  match mode with
  | Mode.limited =>
    match s.rate_limiter with
    | some rl =>
      { s with rate_limit_mode := mode,
               rate_limiter := some (FixedWindowRateLimiter.reset now
                 { rl with max_rpm := mr, max_tpm := mt }) }
    | none =>
      { s with rate_limit_mode := mode,
               rate_limiter := some (FixedWindowRateLimiter.make mr mt 10 60 now) }
  | Mode.unlimited => { s with rate_limit_mode := mode, rate_limiter := none }

/-- Python `_calculate_tpm` (lines 190-215).  Returns `none` when the code raises
`ZeroDivisionError` (pruned history non-empty with a zero actual span),
together with the post-call state (the pruning side effect). -/
def calculate_tpm (now : ℚ) (s : BatchProcessor) : Option ℤ × BatchProcessor :=
  if s.token_history = [] then (some 0, s)
  else
    let h := s.token_history.dropWhile (fun p => decide (p.1 < now - s.tpm_window_seconds))
    let s' := { s with token_history := h }
    match h with
    | [] => (some 0, s')
    | p :: rest =>
      let dur := now - p.1
      if dur = 0 then (none, s')
      else (some (pyInt ((((p :: rest).map Prod.snd).sum : ℚ) / dur * 60)), s')

/-- Python `_calculate_rpm` (lines 217-239), including the
`window_duration < 1 → 0` guard. -/
def calculate_rpm (now : ℚ) (s : BatchProcessor) : ℤ × BatchProcessor :=
  if s.request_history = [] then (0, s)
  else
    let h := s.request_history.dropWhile (fun ts => decide (ts < now - s.rpm_window_seconds))
    let s' := { s with request_history := h }
    match h with
    | [] => (0, s')
    | r :: rest =>
      let dur := now - r
      if dur < 1 then (0, s')
      else (pyInt (((r :: rest).length : ℚ) / dur * 60), s')

/-- Python `_calculate_qps` (lines 241-257). -/
def calculate_qps (now : ℚ) (s : BatchProcessor) : ℚ × BatchProcessor :=
  let d := now - s.last_qps_calculation_time
  if d ≥ 1/10 then
    let q : ℚ := if 0 < s.queries_since_last_calculation
      then (s.queries_since_last_calculation : ℚ) / d else 0
    (pyRound2 q,
     { s with instantaneous_qps := q, last_qps_calculation_time := now,
              queries_since_last_calculation := 0 })
  else (pyRound2 s.instantaneous_qps, s)

/-- Python `0 if self.min_tokens == float('inf') else self.min_tokens`
(line 268). -/
def reportMin : Option ℕ → ℕ
  | none => 0
  | some v => v

/-- The dictionary returned by `get_progress` (lines 276-292). -/
structure ProgressReport where
  completed : ℕ
  total : ℕ
  queue_size : ℕ
  results : List TaskOutcome
  error_count : ℕ
  requeued_tasks : ℕ
  total_tokens : ℕ
  min_tokens : ℕ
  max_tokens : ℕ
  avg_tokens : ℤ
  tpm : ℤ
  rpm : ℤ
  qps : ℚ
  rate_limit_mode : Mode
  rate_limit_info : Option FixedWindowRateLimiter.RatesInfo
  deriving DecidableEq

/-- Python `get_progress` (lines 259-292).  The first component is `none` when the
snapshot raises (`_calculate_tpm` divides by zero); the second component is
the post-call state including all pruning/QPS side effects that happened
before the raise. -/
def get_progress (now : ℚ) (s : BatchProcessor) :
    Option ProgressReport × BatchProcessor :=
  let avg_tokens : ℤ :=
    if 0 < s.token_count then roundHalfEven ((s.total_tokens : ℚ) / (s.token_count : ℚ)) else 0
  let minTok : ℕ := reportMin s.min_tokens
  let infoPair :
      Option FixedWindowRateLimiter.RatesInfo × BatchProcessor :=
    match s.rate_limit_mode, s.rate_limiter with
    | Mode.limited, some rl =>
      let pr := FixedWindowRateLimiter.get_current_rates now rl
      (some pr.1, { s with rate_limiter := some pr.2 })
    | _, _ => (none, s)
  match calculate_tpm now infoPair.2 with
  | (none, s2) => (none, s2)
  | (some tpmv, s2) =>
    let rp := calculate_rpm now s2
    let qp := calculate_qps now rp.2
    (some { completed := s.completed_tasks, total := s.total_tasks,
            queue_size := s.task_queue.length, results := s.results,
            error_count := s.error_count, requeued_tasks := s.requeued_tasks,
            total_tokens := s.total_tokens, min_tokens := minTok,
            max_tokens := s.max_tokens, avg_tokens := avg_tokens,
            tpm := tpmv, rpm := rp.1, qps := qp.1,
            rate_limit_mode := s.rate_limit_mode, rate_limit_info := infoPair.1 },
     qp.2)

/-- Python `remaining_tasks` (lines 294-297). -/
def remaining_tasks (s : BatchProcessor) : ℤ :=
  (s.total_tasks : ℤ) - (s.completed_tasks : ℤ)

end BatchProcessor

/-- The states of a `BatchProcessor` reachable through its public operations
and worker-loop iterations, over arbitrary clock readings and task
behaviours. -/
inductive Reachable : BatchProcessor → Prop where
  | init (n : ℕ) (mode : Mode) (mr mt : ℕ) (now : ℚ) :
      Reachable (BatchProcessor.make n mode mr mt now)
  | add_task (s : BatchProcessor) (task : ℕ) :
      Reachable s → Reachable (BatchProcessor.add_task task s)
  | step (s : BatchProcessor) (eid : ℕ) (exec : ExecOutcome) (tm : StepTimes) :
      Reachable s → Reachable (BatchProcessor.executorStep eid exec tm s)
  | start (s : BatchProcessor) (now : ℚ) :
      Reachable s → Reachable (BatchProcessor.start now s)
  | stop (s : BatchProcessor) :
      Reachable s → Reachable (BatchProcessor.stop s)
  | reset (s : BatchProcessor) (now : ℚ) (n : ℕ) :
      Reachable s → Reachable (BatchProcessor.reset now n s)
  | set_limits (s : BatchProcessor) (mode : Mode) (mr mt : ℕ) (now : ℚ) :
      Reachable s → Reachable (BatchProcessor.set_rate_limits mode mr mt now s)
  | progress (s : BatchProcessor) (now : ℚ) :
      Reachable s → Reachable (BatchProcessor.get_progress now s).2

/-- Iterated `record_request`, each call passing the same token count `T` and
its own wall-clock reading. -/
def recordMany (ts : List ℚ) (T : ℕ) (rl : FixedWindowRateLimiter) :
    FixedWindowRateLimiter :=
  ts.foldl (fun r t => FixedWindowRateLimiter.record_request t (some T) r) rl

/-- The default-constructed processor (`BatchProcessor()`), clock at 0. -/
def initBP : BatchProcessor := BatchProcessor.make 2 Mode.unlimited 0 0 0

/-- Concrete limiter for C1: `max_tpm = 60` (token quota `60`), token-window
counter already at `100`, reachable by recording 100 tokens in the current
window. -/
def rlC1 : FixedWindowRateLimiter :=
  { FixedWindowRateLimiter.make 0 60 10 60 0 with tpm_window_tokens := 100 }

/-- Concrete limiter for C5: one request timestamp at time 0, older than the
60-second sliding cutoff of an access at time 100. -/
def rlC5 : FixedWindowRateLimiter :=
  { FixedWindowRateLimiter.make 0 0 10 60 0 with request_timestamps := [0] }

/-- Concrete limiter for C3's witness: request quota `6 * 10 / 60 = 1`
already consumed by the current window. -/
def rlC3 : FixedWindowRateLimiter :=
  { FixedWindowRateLimiter.make 6 0 10 60 0 with rpm_window_requests := 1 }

/-- Concrete processor for C3's witness: limited mode, one queued task,
limiter at its request quota. -/
def sC3 : BatchProcessor :=
  { BatchProcessor.make 2 Mode.limited 6 0 0 with
    task_queue := [7],
    rate_limiter := some rlC3 }

/-- All-zero clock readings for a worker iteration. -/
def tmW : StepTimes :=
  { tLimit := 0, tQuery := 0, tRecord := 0, tReq := 0, tTok := 0, mStart := 0, mEnd := 0 }

/-- Concrete processor for C6: one successful request recorded half a second
before the snapshot at time 1. -/
def sC6 : BatchProcessor := { initBP with request_history := [(1:ℚ)/2] }

/-- Concrete processor for C7: cached instantaneous QPS of `1/3`, last QPS
calculation at time 0. -/
def sC7 : BatchProcessor := { initBP with instantaneous_qps := (1:ℚ)/3 }

/-- Concrete processor for C9: one token-bearing result recorded at the same
wall-clock instant (time 5) as the snapshot. -/
def sC9 : BatchProcessor := { initBP with token_history := [(5, 100)] }

open FixedWindowRateLimiter in
theorem refreshWindows_eq (now : ℚ) (rl : FixedWindowRateLimiter) :
    refreshWindows now rl =
      { rl with
        rpm_window_start_time :=
          if now - rl.rpm_window_start_time ≥ rl.rpm_window_size then now
          else rl.rpm_window_start_time,
        rpm_window_requests :=
          if now - rl.rpm_window_start_time ≥ rl.rpm_window_size then 0
          else rl.rpm_window_requests,
        tpm_window_start_time :=
          if now - rl.tpm_window_start_time ≥ rl.tpm_window_size then now
          else rl.tpm_window_start_time,
        tpm_window_tokens :=
          if now - rl.tpm_window_start_time ≥ rl.tpm_window_size then 0
          else rl.tpm_window_tokens,
        request_timestamps := rl.request_timestamps.dropWhile (fun ts => decide (ts < now - 60)),
        token_usage := rl.token_usage.dropWhile (fun p => decide (p.1 < now - 60)) } := by
  simp only [FixedWindowRateLimiter.refreshWindows]
  split_ifs <;> rfl

theorem record_request_tpm (now : ℚ) (tok : Option ℕ) (rl : FixedWindowRateLimiter) :
    (FixedWindowRateLimiter.record_request now tok rl).tpm_window_tokens
      = rl.tpm_window_tokens + tok.getD 0 ∧
    (FixedWindowRateLimiter.record_request now tok rl).tpm_window_start_time
      = rl.tpm_window_start_time := by
  rcases tok with _ | n
  · simp [FixedWindowRateLimiter.record_request, tokensTruthy,
      FixedWindowRateLimiter.calculateRates]
  · rcases n with _ | m <;>
      simp [FixedWindowRateLimiter.record_request, tokensTruthy,
        FixedWindowRateLimiter.calculateRates]

theorem recordMany_tpm (T : ℕ) (ts : List ℚ) :
    ∀ rl : FixedWindowRateLimiter,
      (recordMany ts T rl).tpm_window_tokens = rl.tpm_window_tokens + ts.length * T := by
  induction ts with
  | nil => intro rl; simp [recordMany]
  | cons t ts ih =>
    intro rl
    have h := (record_request_tpm t (some T) rl).1
    simp only [recordMany, List.foldl_cons] at ih ⊢
    rw [ih, h]
    simp only [Option.getD_some, List.length_cons]
    ring

/-- C2: a failed execution with the 429/rate-limit signature is re-enqueued at
the tail with `requeued_tasks` incremented and nothing recorded; any other
failure records exactly one error outcome, bumps `completed_tasks` and
`error_count` by one, and is not re-enqueued. -/
theorem claim_C2 (eid task : ℕ) (msg : String) (tm : StepTimes) (s : BatchProcessor) :
    ((BatchProcessor.executePath eid task (ExecOutcome.err msg) tm s).requeued_tasks =
       if isRateLimitError msg then s.requeued_tasks + 1 else s.requeued_tasks) ∧
    ((BatchProcessor.executePath eid task (ExecOutcome.err msg) tm s).task_queue =
       if isRateLimitError msg then s.task_queue ++ [task] else s.task_queue) ∧
    ((BatchProcessor.executePath eid task (ExecOutcome.err msg) tm s).results =
       if isRateLimitError msg then s.results
       else s.results ++ [{ executor_id := eid, task_result := none,
                            execution_time := tm.mEnd - tm.mStart, error := some msg,
                            status := Status.error }]) ∧
    ((BatchProcessor.executePath eid task (ExecOutcome.err msg) tm s).completed_tasks =
       if isRateLimitError msg then s.completed_tasks else s.completed_tasks + 1) ∧
    ((BatchProcessor.executePath eid task (ExecOutcome.err msg) tm s).error_count =
       if isRateLimitError msg then s.error_count else s.error_count + 1) ∧
    isRateLimitError msg = (strContainsSub msg str429 && strContainsSub msg.toLower strRateLimit) := by
  refine ⟨?_, ?_, ?_, ?_, ?_, rfl⟩ <;>
    cases h : isRateLimitError msg <;>
      simp [BatchProcessor.executePath, h]

/-- C8: `start` zeroes the per-run counters, empties the results log, resets
the limiter state when one exists, and leaves `total_tasks` and the queue
contents unchanged. -/
theorem claim_C8 (s : BatchProcessor) (now : ℚ) :
    (BatchProcessor.start now s).completed_tasks = 0 ∧
    (BatchProcessor.start now s).error_count = 0 ∧
    (BatchProcessor.start now s).requeued_tasks = 0 ∧
    (BatchProcessor.start now s).results = [] ∧
    (BatchProcessor.start now s).total_tasks = s.total_tasks ∧
    (BatchProcessor.start now s).task_queue = s.task_queue ∧
    (BatchProcessor.start now s).rate_limiter
      = s.rate_limiter.map (fun rl => FixedWindowRateLimiter.reset now rl) ∧
    (∀ rl : FixedWindowRateLimiter,
      (FixedWindowRateLimiter.reset now rl).request_timestamps = [] ∧
      (FixedWindowRateLimiter.reset now rl).token_usage = [] ∧
      (FixedWindowRateLimiter.reset now rl).rpm_window_requests = 0 ∧
      (FixedWindowRateLimiter.reset now rl).tpm_window_tokens = 0 ∧
      (FixedWindowRateLimiter.reset now rl).rpm_window_start_time = now ∧
      (FixedWindowRateLimiter.reset now rl).tpm_window_start_time = now) := by
  refine ⟨rfl, rfl, rfl, rfl, rfl, rfl, rfl, ?_⟩
  intro rl
  exact ⟨rfl, rfl, rfl, rfl, rfl, rfl⟩

/-- C5 (amended): `should_limit`'s only state effect is `_refresh_windows`:
window rollovers plus pruning history entries older than 60 seconds from the
head; counters are never advanced and nothing is appended. -/
theorem claim_C5_amended (rl : FixedWindowRateLimiter) (now : ℚ) (tokens : Option ℕ) :
    (FixedWindowRateLimiter.should_limit now tokens rl).2
      = FixedWindowRateLimiter.refreshWindows now rl ∧
    (FixedWindowRateLimiter.refreshWindows now rl).request_timestamps
      = rl.request_timestamps.dropWhile (fun ts => decide (ts < now - 60)) ∧
    (FixedWindowRateLimiter.refreshWindows now rl).token_usage
      = rl.token_usage.dropWhile (fun p => decide (p.1 < now - 60)) ∧
    ((FixedWindowRateLimiter.refreshWindows now rl).rpm_window_requests
        = rl.rpm_window_requests ∨
      (FixedWindowRateLimiter.refreshWindows now rl).rpm_window_requests = 0) ∧
    ((FixedWindowRateLimiter.refreshWindows now rl).tpm_window_tokens
        = rl.tpm_window_tokens ∨
      (FixedWindowRateLimiter.refreshWindows now rl).tpm_window_tokens = 0) ∧
    (FixedWindowRateLimiter.refreshWindows now rl).current_rpm = rl.current_rpm ∧
    (FixedWindowRateLimiter.refreshWindows now rl).current_tpm = rl.current_tpm ∧
    (FixedWindowRateLimiter.refreshWindows now rl).max_rpm = rl.max_rpm ∧
    (FixedWindowRateLimiter.refreshWindows now rl).max_tpm = rl.max_tpm := by
  refine ⟨rfl, ?_, ?_, ?_, ?_, ?_, ?_, ?_, ?_⟩ <;>
    simp only [refreshWindows_eq] <;>
    first
      | rfl
      | (split_ifs <;> simp)

/-- C5 counterexample: at a concrete state with a 100-second-old request
timestamp, `should_limit` does change the sliding request-timestamp history
(the claim as stated says it is unchanged for every call and state). -/
theorem claim_C5_counterexample :
    (FixedWindowRateLimiter.should_limit 100 none rlC5).2.request_timestamps
      ≠ rlC5.request_timestamps := by
  with_unfolding_all decide

theorem refreshWindows_max_rpm (now : ℚ) (rl : FixedWindowRateLimiter) :
    (FixedWindowRateLimiter.refreshWindows now rl).max_rpm = rl.max_rpm := by
  simp [refreshWindows_eq]

theorem refreshWindows_max_tpm (now : ℚ) (rl : FixedWindowRateLimiter) :
    (FixedWindowRateLimiter.refreshWindows now rl).max_tpm = rl.max_tpm := by
  simp [refreshWindows_eq]

theorem refreshWindows_rws (now : ℚ) (rl : FixedWindowRateLimiter) :
    (FixedWindowRateLimiter.refreshWindows now rl).rpm_window_size = rl.rpm_window_size := by
  simp [refreshWindows_eq]

theorem refreshWindows_tws (now : ℚ) (rl : FixedWindowRateLimiter) :
    (FixedWindowRateLimiter.refreshWindows now rl).tpm_window_size = rl.tpm_window_size := by
  simp [refreshWindows_eq]

theorem should_limit_fst_iff (now : ℚ) (tokens : Option ℕ) (rl : FixedWindowRateLimiter) :
    ((FixedWindowRateLimiter.should_limit now tokens rl).1 = true ↔
      (0 < (FixedWindowRateLimiter.calculateWindowLimits
              (FixedWindowRateLimiter.refreshWindows now rl)).1 ∧
        ((FixedWindowRateLimiter.refreshWindows now rl).rpm_window_requests : ℚ)
          ≥ (FixedWindowRateLimiter.calculateWindowLimits
              (FixedWindowRateLimiter.refreshWindows now rl)).1) ∨
      (0 < (FixedWindowRateLimiter.calculateWindowLimits
              (FixedWindowRateLimiter.refreshWindows now rl)).2 ∧
        tokensTruthy tokens = true ∧
        ((FixedWindowRateLimiter.refreshWindows now rl).tpm_window_tokens : ℚ)
            + (tokens.getD 0 : ℚ)
          > (FixedWindowRateLimiter.calculateWindowLimits
              (FixedWindowRateLimiter.refreshWindows now rl)).2)) := by
  simp only [FixedWindowRateLimiter.should_limit]
  split_ifs with h1 h2 <;> simp_all

/-- C1 (amended): in limited mode `should_limit` is true iff the request gate
fires (`max_rpm > 0` and the rolled-over request-window counter has reached
`max_rpm * rpm_window_size / 60`) or the token gate fires (`max_tpm > 0`, a
NONZERO token estimate is supplied — Python truthiness also treats a supplied
`0` as absent — and counter plus estimate exceeds
`max_tpm * tpm_window_size / 60`); with both caps 0 it is always false. -/
theorem claim_C1_amended (rl : FixedWindowRateLimiter) (now : ℚ) (tokens : Option ℕ)
    (hr : 0 < rl.rpm_window_size) (ht : 0 < rl.tpm_window_size) :
    ((FixedWindowRateLimiter.should_limit now tokens rl).1 = true ↔
      (0 < rl.max_rpm ∧
        ((FixedWindowRateLimiter.refreshWindows now rl).rpm_window_requests : ℚ)
          ≥ (rl.max_rpm : ℚ) * rl.rpm_window_size / 60) ∨
      (0 < rl.max_tpm ∧ ∃ t : ℕ, tokens = some t ∧ t ≠ 0 ∧
        ((FixedWindowRateLimiter.refreshWindows now rl).tpm_window_tokens : ℚ) + (t : ℚ)
          > (rl.max_tpm : ℚ) * rl.tpm_window_size / 60)) ∧
    (rl.max_rpm = 0 → rl.max_tpm = 0 →
      (FixedWindowRateLimiter.should_limit now tokens rl).1 = false) := by
  have hq1 : 0 < rl.max_rpm → 0 < (rl.max_rpm : ℚ) * rl.rpm_window_size / 60 := by
    intro hm
    exact div_pos (mul_pos (by exact_mod_cast hm) hr) (by norm_num)
  have hq2 : 0 < rl.max_tpm → 0 < (rl.max_tpm : ℚ) * rl.tpm_window_size / 60 := by
    intro hm
    exact div_pos (mul_pos (by exact_mod_cast hm) ht) (by norm_num)
  have hlim : FixedWindowRateLimiter.calculateWindowLimits
      (FixedWindowRateLimiter.refreshWindows now rl) =
      ((if 0 < rl.max_rpm then (rl.max_rpm : ℚ) * rl.rpm_window_size / 60 else 0),
       (if 0 < rl.max_tpm then (rl.max_tpm : ℚ) * rl.tpm_window_size / 60 else 0)) := by
    simp [FixedWindowRateLimiter.calculateWindowLimits, refreshWindows_max_rpm,
      refreshWindows_max_tpm, refreshWindows_rws, refreshWindows_tws]
  have hA : (0 < (FixedWindowRateLimiter.calculateWindowLimits
              (FixedWindowRateLimiter.refreshWindows now rl)).1 ∧
        ((FixedWindowRateLimiter.refreshWindows now rl).rpm_window_requests : ℚ)
          ≥ (FixedWindowRateLimiter.calculateWindowLimits
              (FixedWindowRateLimiter.refreshWindows now rl)).1) ↔
      (0 < rl.max_rpm ∧
        ((FixedWindowRateLimiter.refreshWindows now rl).rpm_window_requests : ℚ)
          ≥ (rl.max_rpm : ℚ) * rl.rpm_window_size / 60) := by
    rw [hlim]
    by_cases hm : 0 < rl.max_rpm
    · simp [hm, hq1 hm]
    · simp [hm]
  have hB : (0 < (FixedWindowRateLimiter.calculateWindowLimits
              (FixedWindowRateLimiter.refreshWindows now rl)).2 ∧
        tokensTruthy tokens = true ∧
        ((FixedWindowRateLimiter.refreshWindows now rl).tpm_window_tokens : ℚ)
            + (tokens.getD 0 : ℚ)
          > (FixedWindowRateLimiter.calculateWindowLimits
              (FixedWindowRateLimiter.refreshWindows now rl)).2) ↔
      (0 < rl.max_tpm ∧ ∃ t : ℕ, tokens = some t ∧ t ≠ 0 ∧
        ((FixedWindowRateLimiter.refreshWindows now rl).tpm_window_tokens : ℚ) + (t : ℚ)
          > (rl.max_tpm : ℚ) * rl.tpm_window_size / 60) := by
    rw [hlim]
    by_cases hm : 0 < rl.max_tpm
    · simp only [hm, if_pos, true_and]
      constructor
      · rintro ⟨hpos, htt, hgt⟩
        rcases tokens with _ | t
        · simp [tokensTruthy] at htt
        · have ht0 : t ≠ 0 := by
            simpa [tokensTruthy] using htt
          exact ⟨t, rfl, ht0, by simpa using hgt⟩
      · rintro ⟨t, htok, ht0, hgt⟩
        subst htok
        refine ⟨hq2 hm, ?_, by simpa using hgt⟩
        simpa [tokensTruthy] using ht0
    · simp [hm]
  constructor
  · exact Iff.trans (should_limit_fst_iff now tokens rl) (or_congr hA hB)
  · intro h0r h0t
    rcases hb : (FixedWindowRateLimiter.should_limit now tokens rl).1 with _ | _
    · rfl
    · exfalso
      have := (should_limit_fst_iff now tokens rl).mp hb
      rw [hlim] at this
      rcases this with ⟨hpos, _⟩ | ⟨hpos, _⟩
      · simp [h0r] at hpos
      · simp [h0t] at hpos

/-- C1 counterexample: reading "a token estimate is supplied" as the estimate
argument being present, the claim forces `should_limit` to return true at
this state (token quota 60, window counter 100, supplied estimate 0), but the
code returns false — Python's `tokens and ...` treats a supplied `0` as
absent. -/
theorem claim_C1_counterexample :
    (FixedWindowRateLimiter.should_limit 0 (some 0) rlC1).1 = false ∧
    0 < rlC1.max_tpm ∧
    (some 0 : Option ℕ).isSome = true ∧
    ((FixedWindowRateLimiter.refreshWindows 0 rlC1).tpm_window_tokens : ℚ)
        + ((some 0 : Option ℕ).getD 0 : ℚ)
      > (rlC1.max_tpm : ℚ) * rlC1.tpm_window_size / 60 := by
  with_unfolding_all decide

theorem claim_C1_witness :
    (FixedWindowRateLimiter.should_limit 0 none (FixedWindowRateLimiter.make 0 0 10 60 0)).1
      = false :=
  (claim_C1_amended (FixedWindowRateLimiter.make 0 0 10 60 0) 0 none
    (by with_unfolding_all decide) (by with_unfolding_all decide)).2 rfl rfl

/-- C4: K records of T tokens in a fresh token window leave the counter at
exactly K*T; the token window's counter and start time change under
`_refresh_windows` exactly when the elapsed time reaches the window size
(`should_limit` and `get_current_rates` both apply this refresh), and
`record_request` never resets the window (it preserves the start time and
only adds to the counter). -/
theorem claim_C4 (rl : FixedWindowRateLimiter) (ts : List ℚ) (T : ℕ)
    (h0 : rl.tpm_window_tokens = 0)
    (hin : ∀ t ∈ ts, t - rl.tpm_window_start_time < rl.tpm_window_size) :
    (recordMany ts T rl).tpm_window_tokens = ts.length * T ∧
    (∀ (r : FixedWindowRateLimiter) (now : ℚ),
      (FixedWindowRateLimiter.refreshWindows now r).tpm_window_tokens =
        if now - r.tpm_window_start_time ≥ r.tpm_window_size then 0
        else r.tpm_window_tokens) ∧
    (∀ (r : FixedWindowRateLimiter) (now : ℚ),
      (FixedWindowRateLimiter.refreshWindows now r).tpm_window_start_time =
        if now - r.tpm_window_start_time ≥ r.tpm_window_size then now
        else r.tpm_window_start_time) ∧
    (∀ (r : FixedWindowRateLimiter) (now : ℚ) (tok : Option ℕ),
      (FixedWindowRateLimiter.should_limit now tok r).2
        = FixedWindowRateLimiter.refreshWindows now r) ∧
    (∀ (r : FixedWindowRateLimiter) (now : ℚ),
      (FixedWindowRateLimiter.get_current_rates now r).2.tpm_window_tokens
        = (FixedWindowRateLimiter.refreshWindows now r).tpm_window_tokens) ∧
    (∀ (r : FixedWindowRateLimiter) (now : ℚ) (tok : Option ℕ),
      (FixedWindowRateLimiter.record_request now tok r).tpm_window_start_time
        = r.tpm_window_start_time ∧
      (FixedWindowRateLimiter.record_request now tok r).tpm_window_tokens
        = r.tpm_window_tokens + tok.getD 0) := by
  refine ⟨?_, ?_, ?_, ?_, ?_, ?_⟩
  · rw [recordMany_tpm, h0, Nat.zero_add]
  · intro r now
    simp [refreshWindows_eq]
  · intro r now
    simp [refreshWindows_eq]
  · intro r now tok
    rfl
  · intro r now
    rfl
  · intro r now tok
    exact ⟨(record_request_tpm now tok r).2, (record_request_tpm now tok r).1⟩

theorem claim_C4_witness :
    (recordMany [(1:ℚ), 2] 5 (FixedWindowRateLimiter.make 0 0 10 60 0)).tpm_window_tokens
      = 2 * 5 :=
  (claim_C4 (FixedWindowRateLimiter.make 0 0 10 60 0) [(1:ℚ), 2] 5 rfl
    (by with_unfolding_all decide)).1

/-- C6 (amended): after head-pruning entries older than the window (10 s for
requests, 60 s for tokens), a non-empty remaining history yields
`int(count-or-sum * 60 / (now - oldest))` — except that the request-rate
computation returns 0 when `now - oldest < 1` (a small-denominator guard),
and the token-rate computation fails (ZeroDivisionError) when
`now - oldest = 0`; an empty pruned history yields 0. -/
theorem claim_C6_amended (s : BatchProcessor) (now : ℚ)
    (hr : s.rpm_window_seconds = 10) (ht : s.tpm_window_seconds = 60) :
    ((BatchProcessor.calculate_rpm now s).1 =
      match s.request_history.dropWhile (fun ts => decide (ts < now - 10)) with
      | [] => 0
      | r :: rest =>
        if now - r < 1 then 0
        else pyInt (((r :: rest).length : ℚ) / (now - r) * 60)) ∧
    ((BatchProcessor.calculate_tpm now s).1 =
      match s.token_history.dropWhile (fun p => decide (p.1 < now - 60)) with
      | [] => some 0
      | p :: rest =>
        if now - p.1 = 0 then none
        else some (pyInt ((((p :: rest).map Prod.snd).sum : ℚ) / (now - p.1) * 60))) := by
  constructor
  · by_cases hemp : s.request_history = []
    · simp [BatchProcessor.calculate_rpm, hemp]
    · rcases hdw : s.request_history.dropWhile (fun ts => decide (ts < now - 10)) with _ | ⟨r, rest⟩
      · simp [BatchProcessor.calculate_rpm, hemp, hr, hdw]
      · simp only [BatchProcessor.calculate_rpm, hemp, hr, hdw, if_false]
        split_ifs <;> simp [hdw]
  · by_cases hemp : s.token_history = []
    · simp [BatchProcessor.calculate_tpm, hemp]
    · rcases hdw : s.token_history.dropWhile (fun p => decide (p.1 < now - 60)) with _ | ⟨p, rest⟩
      · simp [BatchProcessor.calculate_tpm, hemp, ht, hdw]
      · simp only [BatchProcessor.calculate_tpm, hemp, ht, hdw, if_false]
        split_ifs <;> simp [hdw]

/-- C6 counterexample: with one request recorded at time 1/2 and a snapshot
at time 1, the pruned history is non-empty and the claimed scaled value is
`int(1 * 60 / (1/2)) = 120`, but the code returns 0 because of the
`window_duration < 1` guard the claim omits. -/
theorem claim_C6_counterexample :
    sC6.request_history.dropWhile (fun ts => decide (ts < 1 - 10)) = [(1:ℚ)/2] ∧
    pyInt ((1 : ℚ) / (1 - (1:ℚ)/2) * 60) = 120 ∧
    (BatchProcessor.calculate_rpm 1 sC6).1 = 0 ∧
    (0 : ℤ) ≠ 120 := by
  with_unfolding_all decide

theorem claim_C6_witness :
    (BatchProcessor.calculate_rpm 1 sC6).1 =
      match sC6.request_history.dropWhile (fun ts => decide (ts < 1 - 10)) with
      | [] => 0
      | r :: rest =>
        if (1:ℚ) - r < 1 then 0
        else pyInt (((r :: rest).length : ℚ) / (1 - r) * 60) :=
  (claim_C6_amended sC6 1 rfl rfl).1

/-- C7 (amended): when at least 0.1 s has elapsed since the previous
calculation, the QPS snapshot stores `queries / elapsed`, zeroes the query
counter and moves the last-calculation timestamp to now; otherwise the state
is untouched.  In both cases the RETURNED value is the (fresh or cached)
stored value rounded to two decimal places, not the raw cached value. -/
theorem claim_C7_amended (s : BatchProcessor) (now : ℚ) :
    ((BatchProcessor.calculate_qps now s).1 =
      pyRound2 (if now - s.last_qps_calculation_time ≥ 1/10
        then (s.queries_since_last_calculation : ℚ) / (now - s.last_qps_calculation_time)
        else s.instantaneous_qps)) ∧
    ((BatchProcessor.calculate_qps now s).2 =
      if now - s.last_qps_calculation_time ≥ 1/10
      then { s with
             instantaneous_qps :=
               (s.queries_since_last_calculation : ℚ) / (now - s.last_qps_calculation_time),
             last_qps_calculation_time := now,
             queries_since_last_calculation := 0 }
      else s) := by
  constructor
  · simp only [BatchProcessor.calculate_qps]
    by_cases hd : now - s.last_qps_calculation_time ≥ 1/10
    · rw [if_pos hd, if_pos hd]
      by_cases hq : 0 < s.queries_since_last_calculation
      · rw [if_pos hq]
      · rw [if_neg hq]
        have hz : s.queries_since_last_calculation = 0 := by omega
        simp [hz]
    · rw [if_neg hd, if_neg hd]
  · simp only [BatchProcessor.calculate_qps]
    by_cases hd : now - s.last_qps_calculation_time ≥ 1/10
    · rw [if_pos hd, if_pos hd]
      by_cases hq : 0 < s.queries_since_last_calculation
      · rw [if_pos hq]
      · rw [if_neg hq]
        have hz : s.queries_since_last_calculation = 0 := by omega
        simp [hz]
    · rw [if_neg hd, if_neg hd]

/-- C7 counterexample: with a cached QPS of 1/3 and only 0.01 s elapsed, the
code returns `round(1/3, 2) = 0.33`, not the previously cached value `1/3`
the claim promises. -/
theorem claim_C7_counterexample :
    ((1:ℚ)/100 - sC7.last_qps_calculation_time < 1/10) ∧
    (BatchProcessor.calculate_qps ((1:ℚ)/100) sC7).1 ≠ sC7.instantaneous_qps := by
  with_unfolding_all decide

theorem executePath_total (eid task : ℕ) (exec : ExecOutcome) (tm : StepTimes)
    (s : BatchProcessor) :
    (BatchProcessor.executePath eid task exec tm s).total_tasks = s.total_tasks := by
  rcases exec with res | msg
  · rcases res with _ | o
    · rcases hm : s.rate_limit_mode <;> rcases hrl : s.rate_limiter with _ | rl <;>
        simp [BatchProcessor.executePath, hm, hrl]
    · rcases o with _ | t <;>
        rcases hm : s.rate_limit_mode <;> rcases hrl : s.rate_limiter with _ | rl <;>
          simp [BatchProcessor.executePath, hm, hrl]
  · by_cases h : isRateLimitError msg <;> simp [BatchProcessor.executePath, h]

theorem executePath_token (eid task : ℕ) (exec : ExecOutcome) (tm : StepTimes)
    (s : BatchProcessor) :
    ((BatchProcessor.executePath eid task exec tm s).token_count = s.token_count ∧
      (BatchProcessor.executePath eid task exec tm s).min_tokens = s.min_tokens) ∨
    (∃ t, (BatchProcessor.executePath eid task exec tm s).token_count = s.token_count + 1 ∧
      (BatchProcessor.executePath eid task exec tm s).min_tokens
        = some (BatchProcessor.minUpdate s.min_tokens t)) := by
  rcases exec with res | msg
  · rcases res with _ | o
    · left
      rcases hm : s.rate_limit_mode <;> rcases hrl : s.rate_limiter with _ | rl <;>
        simp [BatchProcessor.executePath, hm, hrl]
    · rcases o with _ | t
      · left
        rcases hm : s.rate_limit_mode <;> rcases hrl : s.rate_limiter with _ | rl <;>
          simp [BatchProcessor.executePath, hm, hrl]
      · right
        refine ⟨t, ?_⟩
        rcases hm : s.rate_limit_mode <;> rcases hrl : s.rate_limiter with _ | rl <;>
          simp [BatchProcessor.executePath, hm, hrl]
  · left
    by_cases h : isRateLimitError msg <;> simp [BatchProcessor.executePath, h]

theorem executePath_err (eid task : ℕ) (msg : String) (tm : StepTimes) (s : BatchProcessor) :
    ((BatchProcessor.executePath eid task (ExecOutcome.err msg) tm s).requeued_tasks =
      if isRateLimitError msg then s.requeued_tasks + 1 else s.requeued_tasks) ∧
    (BatchProcessor.executePath eid task (ExecOutcome.err msg) tm s).total_tasks
      = s.total_tasks := by
  by_cases h : isRateLimitError msg <;> simp [BatchProcessor.executePath, h]

theorem executorStep_total (eid : ℕ) (exec : ExecOutcome) (tm : StepTimes)
    (s : BatchProcessor) :
    (BatchProcessor.executorStep eid exec tm s).total_tasks = s.total_tasks := by
  rcases hq : s.task_queue with _ | ⟨task, rest⟩
  · simp [BatchProcessor.executorStep, hq]
  · rcases hm : s.rate_limit_mode <;> rcases hrl : s.rate_limiter with _ | rl <;>
      simp only [BatchProcessor.executorStep, hq, hm, hrl] <;>
      try (rw [executePath_total])
    split
    · rfl
    · rw [executePath_total]

theorem executorStep_token (eid : ℕ) (exec : ExecOutcome) (tm : StepTimes)
    (s : BatchProcessor) :
    ((BatchProcessor.executorStep eid exec tm s).token_count = s.token_count ∧
      (BatchProcessor.executorStep eid exec tm s).min_tokens = s.min_tokens) ∨
    (∃ t, (BatchProcessor.executorStep eid exec tm s).token_count = s.token_count + 1 ∧
      (BatchProcessor.executorStep eid exec tm s).min_tokens
        = some (BatchProcessor.minUpdate s.min_tokens t)) := by
  rcases hq : s.task_queue with _ | ⟨task, rest⟩
  · left; simp [BatchProcessor.executorStep, hq]
  · rcases hm : s.rate_limit_mode <;> rcases hrl : s.rate_limiter with _ | rl <;>
      simp only [BatchProcessor.executorStep, hq, hm, hrl]
    · exact executePath_token eid task exec tm _
    · exact executePath_token eid task exec tm _
    · exact executePath_token eid task exec tm _
    · split
      · left; exact ⟨rfl, rfl⟩
      · exact executePath_token eid task exec tm _

theorem calculate_tpm_snd (now : ℚ) (s : BatchProcessor) :
    (BatchProcessor.calculate_tpm now s).2.token_count = s.token_count ∧
    (BatchProcessor.calculate_tpm now s).2.min_tokens = s.min_tokens ∧
    (BatchProcessor.calculate_tpm now s).2.total_tasks = s.total_tasks := by
  by_cases hemp : s.token_history = []
  · simp [BatchProcessor.calculate_tpm, hemp]
  · rcases hdw : s.token_history.dropWhile
        (fun p => decide (p.1 < now - s.tpm_window_seconds)) with _ | ⟨p, rest⟩ <;>
      simp only [BatchProcessor.calculate_tpm, hemp, hdw, if_false] <;>
      first
        | (split_ifs <;> simp)
        | simp

theorem calculate_rpm_snd (now : ℚ) (s : BatchProcessor) :
    (BatchProcessor.calculate_rpm now s).2.token_count = s.token_count ∧
    (BatchProcessor.calculate_rpm now s).2.min_tokens = s.min_tokens ∧
    (BatchProcessor.calculate_rpm now s).2.total_tasks = s.total_tasks := by
  by_cases hemp : s.request_history = []
  · simp [BatchProcessor.calculate_rpm, hemp]
  · rcases hdw : s.request_history.dropWhile
        (fun ts => decide (ts < now - s.rpm_window_seconds)) with _ | ⟨r, rest⟩ <;>
      simp only [BatchProcessor.calculate_rpm, hemp, hdw, if_false] <;>
      first
        | (split_ifs <;> simp)
        | simp

theorem calculate_qps_snd (now : ℚ) (s : BatchProcessor) :
    (BatchProcessor.calculate_qps now s).2.token_count = s.token_count ∧
    (BatchProcessor.calculate_qps now s).2.min_tokens = s.min_tokens ∧
    (BatchProcessor.calculate_qps now s).2.total_tasks = s.total_tasks := by
  simp only [BatchProcessor.calculate_qps]
  split_ifs <;> simp

theorem progress_tail_snd (now : ℚ) (s1 : BatchProcessor) :
    (BatchProcessor.calculate_qps now
        (BatchProcessor.calculate_rpm now s1).2).2.token_count = s1.token_count ∧
    (BatchProcessor.calculate_qps now
        (BatchProcessor.calculate_rpm now s1).2).2.min_tokens = s1.min_tokens ∧
    (BatchProcessor.calculate_qps now
        (BatchProcessor.calculate_rpm now s1).2).2.total_tasks = s1.total_tasks := by
  have h1 := calculate_rpm_snd now s1
  have h2 := calculate_qps_snd now (BatchProcessor.calculate_rpm now s1).2
  exact ⟨h2.1.trans h1.1, (h2.2.1).trans h1.2.1, (h2.2.2).trans h1.2.2⟩

theorem get_progress_snd (now : ℚ) (s : BatchProcessor) :
    (BatchProcessor.get_progress now s).2.token_count = s.token_count ∧
    (BatchProcessor.get_progress now s).2.min_tokens = s.min_tokens ∧
    (BatchProcessor.get_progress now s).2.total_tasks = s.total_tasks := by
  rcases hm : s.rate_limit_mode with _ | _ <;> rcases hrl : s.rate_limiter with _ | rl
  case unlimited.none | unlimited.some | limited.none =>
    rcases hc : BatchProcessor.calculate_tpm now s with ⟨oc, sc⟩
    have hsc := calculate_tpm_snd now s
    rw [hc] at hsc
    rcases oc with _ | v <;> simp only [BatchProcessor.get_progress, hm, hrl, hc]
    · simp at hsc
      exact hsc
    · have ht := progress_tail_snd now sc
      simp at hsc
      exact ⟨ht.1.trans hsc.1, ht.2.1.trans hsc.2.1, ht.2.2.trans hsc.2.2⟩
  case limited.some =>
    rcases hc : BatchProcessor.calculate_tpm now
        { s with rate_limit_mode := Mode.limited,
                 rate_limiter := some (FixedWindowRateLimiter.get_current_rates now rl).2 }
      with ⟨oc, sc⟩
    have hsc := calculate_tpm_snd now
      { s with rate_limit_mode := Mode.limited,
               rate_limiter := some (FixedWindowRateLimiter.get_current_rates now rl).2 }
    rw [hc] at hsc
    rcases oc with _ | v <;> simp only [BatchProcessor.get_progress, hm, hrl, hc]
    · simp at hsc
      exact hsc
    · have ht := progress_tail_snd now sc
      simp at hsc
      exact ⟨ht.1.trans hsc.1, ht.2.1.trans hsc.2.1, ht.2.2.trans hsc.2.2⟩

theorem get_progress_report (now : ℚ) (s : BatchProcessor) (p : BatchProcessor.ProgressReport)
    (s' : BatchProcessor) (h : BatchProcessor.get_progress now s = (some p, s')) :
    p.min_tokens = BatchProcessor.reportMin s.min_tokens ∧
    p.avg_tokens = (if 0 < s.token_count
      then roundHalfEven ((s.total_tokens : ℚ) / (s.token_count : ℚ)) else 0) := by
  rcases hm : s.rate_limit_mode with _ | _ <;> rcases hrl : s.rate_limiter with _ | rl
  case unlimited.none | unlimited.some | limited.none =>
    rcases hc : BatchProcessor.calculate_tpm now s with ⟨oc, sc⟩
    rcases oc with _ | v <;> simp only [BatchProcessor.get_progress, hm, hrl, hc] at h
    · simp at h
    · rw [Prod.mk.injEq, Option.some.injEq] at h
      rw [← h.1]
      exact ⟨rfl, rfl⟩
  case limited.some =>
    rcases hc : BatchProcessor.calculate_tpm now
        { s with rate_limit_mode := Mode.limited,
                 rate_limiter := some (FixedWindowRateLimiter.get_current_rates now rl).2 }
      with ⟨oc, sc⟩
    rcases oc with _ | v <;> simp only [BatchProcessor.get_progress, hm, hrl, hc] at h
    · simp at h
    · rw [Prod.mk.injEq, Option.some.injEq] at h
      rw [← h.1]
      exact ⟨rfl, rfl⟩

theorem reachable_token_inv {s : BatchProcessor} (h : Reachable s) :
    s.token_count = 0 ↔ s.min_tokens = none := by
  induction h with
  | init n mode mr mt now => rcases mode <;> simp [BatchProcessor.make]
  | add_task s task hs ih => simpa [BatchProcessor.add_task] using ih
  | step s eid exec tm hs ih =>
    rcases executorStep_token eid exec tm s with ⟨h1, h2⟩ | ⟨t, h1, h2⟩
    · rw [h1, h2]; exact ih
    · rw [h1, h2]; simp
  | start s now hs ih => simpa [BatchProcessor.start] using ih
  | stop s hs ih => simpa [BatchProcessor.stop] using ih
  | reset s now n hs ih => simp [BatchProcessor.reset]
  | set_limits s mode mr mt now hs ih =>
    rcases mode <;> rcases hrl : s.rate_limiter with _ | rl <;>
      simpa [BatchProcessor.set_rate_limits, hrl] using ih
  | progress s now hs ih =>
    rcases get_progress_snd now s with ⟨h1, h2, _⟩
    rw [h1, h2]; exact ih

/-- C3: an admission-gate requeue increments `requeued_tasks` by exactly one,
re-enqueues at the tail and leaves `total_tasks` unchanged; an upstream
rate-limit requeue does the same; every worker iteration, `start` and
`get_progress` preserve `total_tasks`, `set_rate_limits` preserves it and
`reset` reinitializes it to 0 — only `add_task` increments it. -/
theorem claim_C3 (s : BatchProcessor) (rl : FixedWindowRateLimiter) (task : ℕ)
    (rest : List ℕ) (eid : ℕ) (exec : ExecOutcome) (tm : StepTimes)
    (hq : s.task_queue = task :: rest) (hm : s.rate_limit_mode = Mode.limited)
    (hrl : s.rate_limiter = some rl)
    (hsl : (FixedWindowRateLimiter.should_limit tm.tLimit none rl).1 = true) :
    (BatchProcessor.executorStep eid exec tm s).requeued_tasks = s.requeued_tasks + 1 ∧
    (BatchProcessor.executorStep eid exec tm s).total_tasks = s.total_tasks ∧
    (BatchProcessor.executorStep eid exec tm s).task_queue = rest ++ [task] ∧
    (∀ (s₂ : BatchProcessor) (e₂ : ℕ) (x₂ : ExecOutcome) (t₂ : StepTimes),
      (BatchProcessor.executorStep e₂ x₂ t₂ s₂).total_tasks = s₂.total_tasks) ∧
    (∀ (s₂ : BatchProcessor) (e₂ task₂ : ℕ) (msg : String) (t₂ : StepTimes),
      (BatchProcessor.executePath e₂ task₂ (ExecOutcome.err msg) t₂ s₂).requeued_tasks =
        (if isRateLimitError msg then s₂.requeued_tasks + 1 else s₂.requeued_tasks) ∧
      (BatchProcessor.executePath e₂ task₂ (ExecOutcome.err msg) t₂ s₂).total_tasks
        = s₂.total_tasks) ∧
    (∀ (s₂ : BatchProcessor) (task₂ : ℕ),
      (BatchProcessor.add_task task₂ s₂).total_tasks = s₂.total_tasks + 1 ∧
      (BatchProcessor.add_task task₂ s₂).requeued_tasks = s₂.requeued_tasks ∧
      (BatchProcessor.add_task task₂ s₂).task_queue = s₂.task_queue ++ [task₂]) ∧
    (∀ (s₂ : BatchProcessor) (now : ℚ),
      (BatchProcessor.start now s₂).total_tasks = s₂.total_tasks) ∧
    (∀ (s₂ : BatchProcessor) (now : ℚ),
      (BatchProcessor.get_progress now s₂).2.total_tasks = s₂.total_tasks) ∧
    (∀ (s₂ : BatchProcessor) (mode : Mode) (mr mt : ℕ) (now : ℚ),
      (BatchProcessor.set_rate_limits mode mr mt now s₂).total_tasks = s₂.total_tasks) ∧
    (∀ (s₂ : BatchProcessor) (now : ℚ) (n : ℕ),
      (BatchProcessor.reset now n s₂).total_tasks = 0) := by
  refine ⟨?_, ?_, ?_, ?_, ?_, ?_, ?_, ?_, ?_, ?_⟩
  · simp [BatchProcessor.executorStep, hq, hm, hrl, hsl]
  · exact executorStep_total eid exec tm s
  · simp [BatchProcessor.executorStep, hq, hm, hrl, hsl]
  · intro s₂ e₂ x₂ t₂
    exact executorStep_total e₂ x₂ t₂ s₂
  · intro s₂ e₂ task₂ msg t₂
    exact executePath_err e₂ task₂ msg t₂ s₂
  · intro s₂ task₂
    exact ⟨rfl, rfl, rfl⟩
  · intro s₂ now
    rfl
  · intro s₂ now
    exact (get_progress_snd now s₂).2.2
  · intro s₂ mode mr mt now
    rcases mode <;> rcases hrl₂ : s₂.rate_limiter with _ | rl₂ <;>
      simp [BatchProcessor.set_rate_limits, hrl₂]
  · intro s₂ now n
    rfl

theorem claim_C3_witness :
    (BatchProcessor.executorStep 0 (ExecOutcome.ok none) tmW sC3).requeued_tasks
      = sC3.requeued_tasks + 1 :=
  (claim_C3 sC3 rlC3 7 [] 0 (ExecOutcome.ok none) tmW rfl rfl rfl
    (by with_unfolding_all decide)).1

/-- C10: in every reachable state with no token-bearing result recorded
(`token_count = 0`) the internal minimum tracker is still at its infinity
sentinel, and any successful progress snapshot reports `min_tokens = 0` and
`avg_tokens = 0`; the reported minimum is by construction never the infinity
sentinel (the sentinel is mapped to 0). -/
theorem claim_C10 (s : BatchProcessor) (now : ℚ) (h : Reachable s)
    (h0 : s.token_count = 0) :
    (∀ (p : BatchProcessor.ProgressReport) (s' : BatchProcessor),
      BatchProcessor.get_progress now s = (some p, s') →
        p.min_tokens = 0 ∧ p.avg_tokens = 0) ∧
    s.min_tokens = none ∧
    (∀ m : Option ℕ, BatchProcessor.reportMin m = 0 ∨
      ∃ v, m = some v ∧ BatchProcessor.reportMin m = v) := by
  have hmin : s.min_tokens = none := (reachable_token_inv h).mp h0
  refine ⟨?_, hmin, ?_⟩
  · intro p s' hp
    rcases get_progress_report now s p s' hp with ⟨h1, h2⟩
    constructor
    · rw [h1, hmin]
      rfl
    · rw [h2, h0]
      simp
  · intro m
    rcases m with _ | v
    · left
      rfl
    · right
      exact ⟨v, rfl, rfl⟩

theorem claim_C10_witness : initBP.min_tokens = none :=
  (claim_C10 initBP 0 (Reachable.init 2 Mode.unlimited 0 0 0) rfl).2.1

/-- C9: at the reachable state with a single token-history entry recorded at
the same wall-clock instant as the snapshot, the pruned history is non-empty
but the TPM computation divides by a zero span: `_calculate_tpm` raises
`ZeroDivisionError` (modelled as `none`) and the whole `get_progress`
snapshot fails, contradicting the claim that the computation is total. -/
theorem claim_C9 :
    (BatchProcessor.get_progress 5 sC9).1 = none ∧
    (BatchProcessor.calculate_tpm 5 sC9).1 = none ∧
    sC9.token_history.dropWhile (fun p => decide (p.1 < 5 - 60)) = [((5:ℚ), 100)] := by
  with_unfolding_all decide
